import Mathlib

/-!
Verification of the webhook / order-reconciliation core of the
mahaveer-petals order-management backend.

The TypeScript sources embedded here (shallowly) are:
  * `order.service.ts`   — `createOrderFromWebhook`, `cancelOrder`,
    `updateStock` (transactional guarded decrement), `restoreStock`
    (bulk increment), the `update*` pass-throughs;
  * `shiprocketWebhook.service.ts` — `verifyIncomingHMAC`,
    `resolveEventType`, `mapShipmentStatus`, `handleOrderWebhook` and the
    per-event handlers, `sendProductUpdateWebhook`;
  * `shiprocketWebhookQueue.service.ts` — the in-process outbound retry
    queue.

Conventions of the embedding:
  * JavaScript numbers that carry money / quantities / stock are modelled
    as `Int`; Mongo document ids as `Nat`; external identifiers as
    `String`.
  * A thrown exception is an `Except.error`; each service entry point
    returns its result together with the post-call persistent store, and
    an aborted Mongo transaction leaves the store component unchanged.
  * Optional / possibly-`undefined` payload fields are `Option`;
    JavaScript string truthiness (absent or `""` is falsy) is `strTruthy`,
    `a || b` on strings is `jsOrS`, `a ?? b` and `a || 0` on numeric
    options are `Option.getD`.
-/

/-- JavaScript `String.prototype.toUpperCase` restricted to ASCII,
which is all the status vocabulary uses. -/
def jsToUpper (s : String) : String := ⟨s.data.map Char.toUpper⟩

/-- JavaScript string truthiness: `undefined` and `""` are falsy. -/
def strTruthy : Option String → Bool
  | some s => !s.isEmpty
  | none => false

/-- JavaScript `a || b` for an optional string `a` and a default `b`. -/
def jsOrS (a : Option String) (b : String) : String :=
  if strTruthy a then a.getD "" else b

/-- JavaScript `String.prototype.trim` (ASCII whitespace). -/
def jsTrim (s : String) : String :=
  ⟨((s.data.dropWhile Char.isWhitespace).reverse.dropWhile Char.isWhitespace).reverse⟩

/-- Error values thrown by the services: the repository's `NotFoundError`
and `BadRequestError` classes, and the bare `new Error(...)` used by
`updateStock` and `verifyIncomingHMAC`. -/
inductive JsError where
  | notFound (msg : String)
  | badRequest (msg : String)
  | plainError (msg : String)
deriving Repr, DecidableEq

/-- A product-variant document (`productVariant.model`): the fields read
by the order service. `stock` is an `Int` because a Mongo `$inc` is not
range-checked — non-negativity is exactly the invariant at issue. -/
structure Variant where
  id : Nat
  shiprocketVariantId : String
  productId : Nat
  sku : String
  attrs : String
  image : Option String
  price : Int
  stock : Int
deriving Repr, DecidableEq

/-- A product document: the fields read by the order service. -/
structure Product where
  id : Nat
  name : String
deriving Repr, DecidableEq

/-- One line item of an order, as built by `createOrderFromWebhook`. -/
structure OrderItem where
  variantId : Nat
  shiprocketVariantId : String
  productName : String
  sku : String
  attrs : String
  image : Option String
  quantity : Int
  price : Int
  subtotal : Int
deriving Repr, DecidableEq

/-- The pricing breakdown persisted on an order. -/
structure Pricing where
  subtotal : Int
  discount : Int
  prepaidDiscount : Int
  shippingCharges : Int
  tax : Int
  total : Int
deriving Repr, DecidableEq

/-- An order address after `formatAddress` normalization. -/
structure OrderAddress where
  name : String
  phone : String
  email : String
  addressLine1 : String
  addressLine2 : String
  city : String
  addrState : String
  pinCode : String
  country : String
deriving Repr, DecidableEq

/-- An order document (`order.model`): the fields this core reads or
writes.  Timestamps are `Nat` ticks supplied by the caller (the
`new Date()` oracle). -/
structure Order where
  id : Nat
  shiprocketOrderId : String
  orderNumber : String
  items : List OrderItem
  shippingAddress : Option OrderAddress
  billingAddress : Option OrderAddress
  paymentType : String
  paymentStatus : String
  pricing : Pricing
  appliedCouponCode : Option String
  appliedCouponDiscount : Int
  shippingPlan : Option String
  rtoPrediction : Option String
  estimatedDeliveryDate : Option String
  shiprocketCartId : Option String
  shiprocketFastrrOrderId : Option String
  orderStatus : String
  cancellationReason : Option String
  cancelledAt : Option Nat
  deliveredAt : Option Nat
  trackingNumber : Option String
  shiprocketShipmentId : Option String
deriving Repr, DecidableEq

/-- The persistent store: the variant, product and order collections,
plus the id the next `create` will assign (Mongo object-id oracle). -/
structure Store where
  variants : List Variant
  products : List Product
  orders : List Order
  nextOrderId : Nat
deriving Repr, DecidableEq

/-- A raw address block of the inbound webhook payload. -/
structure RawAddress where
  first_name : Option String
  last_name : Option String
  phone : Option String
  email : Option String
  line1 : Option String
  line2 : Option String
  city : Option String
  region : Option String
  pincode : Option String
  country : Option String
deriving Repr, DecidableEq

/-- One entry of `cart_data.items[]`. -/
structure CartItem where
  variant_id : String
  quantity : Int
deriving Repr, DecidableEq

/-- The inbound Shiprocket webhook payload: every field the pipeline
destructures. -/
structure Payload where
  order_id : String
  cart_items : List CartItem
  status : Option String
  phone : Option String
  email : Option String
  payment_type : Option String
  payment_status : Option String
  total_amount_payable : Option Int
  shipping_address : Option RawAddress
  billing_address : Option RawAddress
  coupon_codes : List String
  coupon_discount : Option Int
  prepaid_discount : Option Int
  subtotal_price : Option Int
  shipping_charges : Option Int
  shipping_plan : Option String
  rto_prediction : Option String
  edd : Option String
  cart_id : Option String
  fastrr_order_id : Option String
  event : Option String
  shipment_status : Option String
  tracking_number : Option String
  shipment_id : Option String
  reason : Option String
  cancellation_reason : Option String
deriving Repr, DecidableEq

/-! ## Stock Ledger (`updateStock` / `restoreStock` of order.service.ts) -/

/-- Mongo lookup of a variant document by `_id` (unique index): the first
— hence only — element with that id. -/
def findVariant? (vs : List Variant) (id : Nat) : Option Variant :=
  vs.find? (fun v => v.id == id)

/-- One guarded decrement:
`updateOne({_id: id, stock: {$gte: q}}, {$inc: {stock: -q}})` inside the
transaction.  `none` models `matchedCount === 0` (variant absent, or its
stock below the requested quantity). -/
def decOne (vs : List Variant) (id : Nat) (q : Int) : Option (List Variant) :=
  match vs with
  | [] => none
  | v :: rest =>
    if v.id == id then
      if q ≤ v.stock then some ({ v with stock := v.stock - q } :: rest) else none
    else (decOne rest id q).map (v :: ·)

/-- The message of the `Error` thrown when a guard fails. -/
def insufficientMsg (id : Nat) : String :=
  "Insufficient stock for variant " ++ toString id

/-- The `for` loop of `updateStock`: sequential guarded decrements inside
one transaction, failing fast. -/
def updateStockLoop : List Variant → List OrderItem → Except String (List Variant)
  | vs, [] => .ok vs
  | vs, it :: rest =>
    match decOne vs it.variantId it.quantity with
    | some vs' => updateStockLoop vs' rest
    | none => .error (insufficientMsg it.variantId)

/-- `updateStock(items)`: an `Except.error` is the thrown error after
`session.abortTransaction()`, i.e. the caller's store keeps its original
`variants`. -/
def updateStock (vs : List Variant) (items : List OrderItem) : Except String (List Variant) :=
  updateStockLoop vs items

/-- `updateStock` at the store level: on success the variant collection is
replaced, on abort it is untouched. -/
def runUpdateStock (s : Store) (items : List OrderItem) : Except String Unit × Store :=
  match updateStock s.variants items with
  | .ok vs' => (.ok (), { s with variants := vs' })
  | .error m => (.error m, s)

/-- One unguarded increment:
`updateOne({_id: id}, {$inc: {stock: q}})` of the `restoreStock`
`bulkWrite` (no match required, no guard). -/
def incOne (vs : List Variant) (id : Nat) (q : Int) : List Variant :=
  match vs with
  | [] => []
  | v :: rest =>
    if v.id == id then { v with stock := v.stock + q } :: rest
    else v :: incOne rest id q

/-- `restoreStock(items)`: best-effort bulk increment of each item's
variant by its quantity. -/
def restoreStock (vs : List Variant) (items : List OrderItem) : List Variant :=
  items.foldl (fun acc it => incOne acc it.variantId it.quantity) vs

/-- Does the store currently satisfy an item's stock guard?  (Its variant
exists and holds at least the requested quantity.) -/
def hasStockFor (vs : List Variant) (it : OrderItem) : Bool :=
  match findVariant? vs it.variantId with
  | some v => it.quantity ≤ v.stock
  | none => false

/-- Every variant stock in the collection is non-negative. -/
def allStockNonneg (vs : List Variant) : Prop :=
  ∀ v ∈ vs, 0 ≤ v.stock

instance : DecidablePred allStockNonneg := fun vs =>
  inferInstanceAs (Decidable (∀ v ∈ vs, 0 ≤ v.stock))

/-! ## Order service (`order.service.ts`) -/

/-- Left-pad a string to 3 characters with `'0'`
(`String.prototype.padStart(3, '0')`). -/
def padStart3 (s : String) : String :=
  if s.length ≥ 3 then s else ⟨List.replicate (3 - s.length) '0' ++ s.data⟩

/-- `generateOrderNumber`: `` `ORD${Date.now()}${random}` `` where
`random = Math.floor(Math.random() * 1000)` padded to 3 digits.  The
clock and the random draw are oracle arguments. -/
def generateOrderNumber (timestamp random : Nat) : String :=
  "ORD" ++ toString timestamp ++ padStart3 (toString (random % 1000))

/-- `formatAddress(addr, fallbackPhone, fallbackEmail)` for a present
address block (the `!addr → undefined` case is handled at the call
sites via `Option.map`). -/
def formatAddress (addr : RawAddress) (fallbackPhone fallbackEmail : Option String) :
    OrderAddress :=
  { name :=
      if strTruthy addr.first_name && strTruthy addr.last_name then
        jsTrim (addr.first_name.getD "" ++ " " ++ addr.last_name.getD "")
      else jsOrS addr.first_name (jsOrS addr.last_name "")
    phone := jsOrS addr.phone (jsOrS fallbackPhone "")
    email := jsOrS addr.email (jsOrS fallbackEmail "")
    addressLine1 := jsOrS addr.line1 ""
    addressLine2 := jsOrS addr.line2 ""
    city := jsOrS addr.city ""
    addrState := jsOrS addr.region ""
    pinCode := jsOrS addr.pincode ""
    country := jsOrS addr.country "India" }

/-- `paymentTypeMap[payment_type] || 'PREPAID'`. -/
def mapPaymentType : Option String → String
  | some "PREPAID" => "PREPAID"
  | some "UPI" => "UPI"
  | some "CARD" => "CARD"
  | some "WALLET" => "WALLET"
  | _ => "PREPAID"

/-- `typeof payment_status === 'string' ? payment_status.toUpperCase() : 'PENDING'`. -/
def normalizedPaymentStatus : Option String → String
  | some ps => jsToUpper ps
  | none => "PENDING"

/-- `paymentStatusMap[normalizedPaymentStatus] || 'PENDING'`. -/
def mapPaymentStatus (x : String) : String :=
  if x == "SUCCESS" then "PAID"
  else if x == "PENDING" then "PENDING"
  else if x == "FAILED" then "FAILED"
  else "PENDING"

/-- Resolve one `cart_data.items[]` entry to an order item:
variant lookup by `shiprocketVariantId` (`NotFound` if absent), parent
product lookup (`NotFound` if absent), snapshotted `price × quantity`. -/
def buildOrderItem (s : Store) (ci : CartItem) : Except JsError OrderItem :=
  match s.variants.find? (fun v => v.shiprocketVariantId == ci.variant_id) with
  | none => .error (.notFound ("Variant not found for Shiprocket ID: " ++ ci.variant_id))
  | some v =>
    match s.products.find? (fun p => p.id == v.productId) with
    | none => .error (.notFound ("Product not found for variant: " ++ toString v.id))
    | some prod =>
      .ok { variantId := v.id
            shiprocketVariantId := v.shiprocketVariantId
            productName := prod.name
            sku := v.sku
            attrs := v.attrs
            image := v.image
            quantity := ci.quantity
            price := v.price
            subtotal := v.price * ci.quantity }

/-- The `Promise.all(cart_data.items.map(...))` step: first thrown
`NotFound` wins. -/
def buildOrderItems (s : Store) (cis : List CartItem) : Except JsError (List OrderItem) :=
  cis.mapM (buildOrderItem s)

/-- `subtotal_price ?? orderItems.reduce((sum, item) => sum + item.subtotal, 0)`. -/
def computedSubtotal (p : Payload) (items : List OrderItem) : Int :=
  p.subtotal_price.getD (items.foldl (fun sum it => sum + it.subtotal) 0)

/-- The computed total:
`subtotal − discount − prepaidDiscount + shippingCharges + tax`
(with `tax` hard-coded to 0). -/
def computedTotal (p : Payload) (items : List OrderItem) : Int :=
  computedSubtotal p items - (p.coupon_discount.getD 0) - (p.prepaid_discount.getD 0)
    + (p.shipping_charges.getD 0) + 0

/-- The persisted pricing block: `total = total_amount_payable ?? computedTotal`. -/
def buildPricing (p : Payload) (items : List OrderItem) : Pricing :=
  { subtotal := computedSubtotal p items
    discount := p.coupon_discount.getD 0
    prepaidDiscount := p.prepaid_discount.getD 0
    shippingCharges := p.shipping_charges.getD 0
    tax := 0
    total := p.total_amount_payable.getD (computedTotal p items) }

/-- The condition under which the pricing-mismatch warning is logged:
`total_amount_payable && Math.abs(total_amount_payable - computedTotal) > 1`
(note JavaScript truthiness: a provider total of `0` is falsy). -/
def pricingMismatchLogged (p : Payload) (items : List OrderItem) : Bool :=
  match p.total_amount_payable with
  | some t => t != 0 && 1 < (t - computedTotal p items).natAbs
  | none => false

/-- The order document `createOrderFromWebhook` persists. -/
def buildOrder (s : Store) (p : Payload) (timestamp random : Nat)
    (items : List OrderItem) : Order :=
  { id := s.nextOrderId
    shiprocketOrderId := p.order_id
    orderNumber := generateOrderNumber timestamp random
    items := items
    shippingAddress := p.shipping_address.map (formatAddress · p.phone p.email)
    billingAddress := p.billing_address.map (formatAddress · p.phone p.email)
    paymentType := mapPaymentType p.payment_type
    paymentStatus := mapPaymentStatus (normalizedPaymentStatus p.payment_status)
    pricing := buildPricing p items
    appliedCouponCode := p.coupon_codes.head?
    appliedCouponDiscount := p.coupon_discount.getD 0
    shippingPlan := if strTruthy p.shipping_plan then p.shipping_plan else none
    rtoPrediction := if strTruthy p.rto_prediction then p.rto_prediction else none
    estimatedDeliveryDate := if strTruthy p.edd then p.edd else none
    shiprocketCartId := if strTruthy p.cart_id then p.cart_id else none
    shiprocketFastrrOrderId := if strTruthy p.fastrr_order_id then p.fastrr_order_id else none
    orderStatus := "CONFIRMED"
    cancellationReason := none
    cancelledAt := none
    deliveredAt := none
    trackingNumber := none
    shiprocketShipmentId := none }

/-- `getOrderByShiprocketId`: `findOne({shiprocketOrderId})`. -/
def findOrderByShiprocketId (s : Store) (sid : String) : Option Order :=
  s.orders.find? (fun o => o.shiprocketOrderId == sid)

/-- `getOrderById`-style lookup: `findById(orderId)`. -/
def findOrderById (s : Store) (oid : Nat) : Option Order :=
  s.orders.find? (fun o => o.id == oid)

/-- `createOrderFromWebhook(webhookData)`.
In order: the success-status gate (silent `null`), the idempotency
lookup, item resolution, pricing, `createOrder` persistence, the
transactional stock decrement, and the fire-and-forget email (absorbed —
its failure is swallowed and it never touches the store).
Note the order document is persisted *before* the stock decrement, so a
stock failure propagates with the order already stored. -/
def createOrderFromWebhook (s : Store) (p : Payload) (timestamp random : Nat) :
    Except JsError (Option Order) × Store :=
  if p.status == some "SUCCESS" then
    match findOrderByShiprocketId s p.order_id with
    | some existing => (.ok (some existing), s)
    | none =>
      match buildOrderItems s p.cart_items with
      | .error e => (.error e, s)
      | .ok items =>
        let order := buildOrder s p timestamp random items
        let s1 : Store :=
          { s with orders := s.orders ++ [order], nextOrderId := s.nextOrderId + 1 }
        match updateStock s1.variants items with
        | .error m => (.error (.plainError m), s1)
        | .ok vs' => (.ok (some order), { s1 with variants := vs' })
  else (.ok none, s)

/-- Replace the (unique) order with the given `_id`, as
`findByIdAndUpdate` does. -/
def updateFirstOrder (orders : List Order) (oid : Nat) (f : Order → Order) : List Order :=
  match orders with
  | [] => []
  | o :: rest =>
    if o.id == oid then f o :: rest else o :: updateFirstOrder rest oid f

/-- `updateOrderStatus`: `NotFound` when absent; sets `deliveredAt` when
the new status is `DELIVERED`. -/
def updateOrderStatusSvc (s : Store) (oid : Nat) (orderStatus : String) (now : Nat) :
    Except JsError Order × Store :=
  match findOrderById s oid with
  | none => (.error (.notFound "Order not found"), s)
  | some o =>
    let f : Order → Order := fun x =>
      { x with orderStatus := orderStatus
               deliveredAt := if orderStatus == "DELIVERED" then some now else x.deliveredAt }
    (.ok (f o), { s with orders := updateFirstOrder s.orders oid f })

/-- `updatePaymentStatus`: `NotFound` when absent. -/
def updatePaymentStatusSvc (s : Store) (oid : Nat) (paymentStatus : String) :
    Except JsError Order × Store :=
  match findOrderById s oid with
  | none => (.error (.notFound "Order not found"), s)
  | some o =>
    let f : Order → Order := fun x => { x with paymentStatus := paymentStatus }
    (.ok (f o), { s with orders := updateFirstOrder s.orders oid f })

/-- `updateTrackingInfo`: `NotFound` when absent. -/
def updateTrackingInfoSvc (s : Store) (oid : Nat) (trackingNumber : Option String)
    (shipmentId : Option String) : Except JsError Order × Store :=
  match findOrderById s oid with
  | none => (.error (.notFound "Order not found"), s)
  | some o =>
    let f : Order → Order := fun x =>
      { x with trackingNumber := trackingNumber
               shiprocketShipmentId :=
                 if strTruthy shipmentId then shipmentId else x.shiprocketShipmentId }
    (.ok (f o), { s with orders := updateFirstOrder s.orders oid f })

/-- The repository update performed by `cancelOrder`. -/
def cancelUpdate (reason : String) (now : Nat) (x : Order) : Order :=
  { x with orderStatus := "CANCELLED"
           paymentStatus := "REFUNDED"
           cancellationReason := some reason
           cancelledAt := some now }

/-- `cancelOrder({orderId, cancellationReason})`: `NotFound` when the
order does not exist; otherwise the cancel update followed by
`restoreStock(order.items)` (the updated document's items — identical to
the original items, which the update does not touch). -/
def cancelOrderSvc (s : Store) (oid : Nat) (reason : String) (now : Nat) :
    Except JsError Order × Store :=
  match findOrderById s oid with
  | none => (.error (.notFound "Order not found"), s)
  | some o =>
    let o' := cancelUpdate reason now o
    let s1 : Store := { s with orders := updateFirstOrder s.orders oid (cancelUpdate reason now) }
    (.ok o', { s1 with variants := restoreStock s1.variants o'.items })

/-! ## Base64 (Node `Buffer`/`digest('base64')` semantics)

`verifyIncomingHMAC` base64-encodes the computed digest and compares the
*decoded bytes* of both signatures (`Buffer.from(s, 'base64')` fed to
`crypto.timingSafeEqual`).  The codec is modelled concretely so that the
byte-level comparison is executable; bytes are `Nat`s below 256. -/

/-- The RFC 4648 base64 alphabet. -/
def b64Alphabet : List Char :=
  [ 'A', 'B', 'C', 'D', 'E', 'F', 'G', 'H', 'I', 'J', 'K', 'L', 'M',
    'N', 'O', 'P', 'Q', 'R', 'S', 'T', 'U', 'V', 'W', 'X', 'Y', 'Z',
    'a', 'b', 'c', 'd', 'e', 'f', 'g', 'h', 'i', 'j', 'k', 'l', 'm',
    'n', 'o', 'p', 'q', 'r', 's', 't', 'u', 'v', 'w', 'x', 'y', 'z',
    '0', '1', '2', '3', '4', '5', '6', '7', '8', '9', '+', '/' ]

/-- The character encoding a sextet. -/
def b64Char (n : Nat) : Char := b64Alphabet.getD n 'A'

/-- The sextet a character decodes to, if it is in the alphabet
(Node's decoder skips every other character, `'='` included). -/
def b64CharVal (c : Char) : Option Nat :=
  let i := b64Alphabet.indexOf c
  if i < 64 then some i else none

/-- Encode bytes three at a time into sextet characters, padding with
`'='`. -/
def b64EncodeChunks : List Nat → List Char
  | [] => []
  | [a] => [b64Char (a / 4), b64Char (a % 4 * 16), '=', '=']
  | [a, b] => [b64Char (a / 4), b64Char (a % 4 * 16 + b / 16), b64Char (b % 16 * 4), '=']
  | a :: b :: c :: rest =>
    b64Char (a / 4) :: b64Char (a % 4 * 16 + b / 16) :: b64Char (b % 16 * 4 + c / 64)
      :: b64Char (c % 64) :: b64EncodeChunks rest

/-- `Buffer.prototype.toString('base64')` / `hmac.digest('base64')`. -/
def base64Encode (bytes : List Nat) : String := ⟨b64EncodeChunks bytes⟩

/-- Reassemble bytes from the surviving sextets (a dangling lone sextet
contributes no byte). -/
def b64DecodeSextets : List Nat → List Nat
  | s1 :: s2 :: s3 :: s4 :: rest =>
    (s1 * 4 + s2 / 16) :: (s2 % 16 * 16 + s3 / 4) :: (s3 % 4 * 64 + s4)
      :: b64DecodeSextets rest
  | [s1, s2, s3] => [s1 * 4 + s2 / 16, s2 % 16 * 16 + s3 / 4]
  | [s1, s2] => [s1 * 4 + s2 / 16]
  | _ => []

/-- `Buffer.from(s, 'base64')`: drop non-alphabet characters, then decode
sextets. -/
def base64Decode (s : String) : List Nat :=
  b64DecodeSextets (s.data.filterMap b64CharVal)

/-! ## Incoming webhook service (`shiprocketWebhook.service.ts`)

The keyed hash itself (`crypto.createHmac('sha256', key).update(data)
.digest()`) is an abstract parameter `mac : String → String → List Nat`
— key and raw data to digest bytes; every theorem quantifies over it. -/

/-- Message of the error thrown when the signature header is absent. -/
def missingHmacMsg : String :=
  "Missing Shiprocket HMAC signature in X-Api-HMAC-SHA256 header"

/-- Message of the error thrown when the byte comparison fails. -/
def invalidHmacMsg : String :=
  "Invalid Shiprocket webhook signature - possible tampering detected"

/-- Message of the `TypeError` `crypto.timingSafeEqual` throws when the
two buffers differ in length. -/
def timingSafeLengthMsg : String :=
  "Input buffers must have the same byte length"

/-- `verifyIncomingHMAC(rawBody, receivedHmac)`:
absent (or empty, hence falsy) header → throw; otherwise base64-encode
`mac(secretKey, rawBody)` and compare the decoded bytes of the two
signatures with `crypto.timingSafeEqual` (which itself throws on a length
mismatch and otherwise reports plain byte equality — the constant-time
aspect is a timing property with no functional content). -/
def verifyIncomingHMAC (mac : String → String → List Nat) (secretKey : String)
    (rawBody : String) (receivedHmac : Option String) : Except JsError Unit :=
  if strTruthy receivedHmac then
    let computed := base64Encode (mac secretKey rawBody)
    let a := base64Decode computed
    let b := base64Decode (receivedHmac.getD "")
    if a.length ≠ b.length then .error (.plainError timingSafeLengthMsg)
    else if a = b then .ok ()
    else .error (.plainError invalidHmacMsg)
  else .error (.plainError missingHmacMsg)

/-- `resolveEventType(payload)`: explicit `event` field (uppercased) wins;
then the `status` vocabulary; then a present `shipment_status`; else
`UNKNOWN`. -/
def resolveEventType (p : Payload) : String :=
  if strTruthy p.event then jsToUpper (p.event.getD "")
  else
    let status := p.status.map jsToUpper
    if status == some "SUCCESS" then "ORDER_SUCCESS"
    else if status == some "FAILED" then "ORDER_FAILED"
    else if status == some "CANCELLED" then "ORDER_CANCELLED"
    else if status == some "INITIATED" then "ORDER_INITIATED"
    else if strTruthy p.shipment_status then "ORDER_STATUS_UPDATE"
    else "UNKNOWN"

/-- `mapShipmentStatus(status)`: the fixed provider-status table, with
`'PROCESSING'` as the logged default for unknown (or absent) statuses. -/
def mapShipmentStatus (status : Option String) : String :=
  match status with
  | none => "PROCESSING"
  | some s =>
    let u := jsToUpper s
    if u == "PICKED_UP" then "PROCESSING"
    else if u == "IN_TRANSIT" then "SHIPPED"
    else if u == "OUT_FOR_DELIVERY" then "OUT_FOR_DELIVERY"
    else if u == "DELIVERED" then "DELIVERED"
    else if u == "RTO" then "RETURNED"
    else if u == "CANCELLED" then "CANCELLED"
    else if u == "PICKUP_SCHEDULED" then "PROCESSING"
    else if u == "MANIFESTED" then "PROCESSING"
    else if u == "DISPATCHED" then "SHIPPED"
    else if u == "RETURNED" then "RETURNED"
    else if u == "RTO_DELIVERED" then "RETURNED"
    else "PROCESSING"

/-- The response value a webhook handler resolves with. -/
inductive WebhookResp where
  | acknowledged
  | ignored
  | success (order : Option Order)
deriving Repr, DecidableEq

/-- `handleOrderSuccess(payload)`: create (or idempotently re-fetch) the
order; the cart-clearing block is commented out in the source. -/
def handleOrderSuccess (s : Store) (p : Payload) (timestamp random : Nat) :
    Except JsError WebhookResp × Store :=
  match createOrderFromWebhook s p timestamp random with
  | (.error e, s') => (.error e, s')
  | (.ok ord, s') => (.ok (.success ord), s')

/-- `handleOrderFailed(payload)`: acknowledge when the order is unknown,
otherwise mark its payment `FAILED`. -/
def handleOrderFailed (s : Store) (p : Payload) : Except JsError WebhookResp × Store :=
  match findOrderByShiprocketId s p.order_id with
  | none => (.ok .acknowledged, s)
  | some o =>
    match updatePaymentStatusSvc s o.id "FAILED" with
    | (.error e, s') => (.error e, s')
    | (.ok _, s') => (.ok (.success none), s')

/-- `payload.reason || payload.cancellation_reason || 'Cancelled via Shiprocket'`. -/
def cancelReasonOf (p : Payload) : String :=
  jsOrS p.reason (jsOrS p.cancellation_reason "Cancelled via Shiprocket")

/-- `handleOrderCancelled(payload)`: acknowledge when the order is
unknown, otherwise cancel it (which restores stock). -/
def handleOrderCancelled (s : Store) (p : Payload) (now : Nat) :
    Except JsError WebhookResp × Store :=
  match findOrderByShiprocketId s p.order_id with
  | none => (.ok .acknowledged, s)
  | some o =>
    match cancelOrderSvc s o.id (cancelReasonOf p) now with
    | (.error e, s') => (.error e, s')
    | (.ok _, s') => (.ok (.success none), s')

/-- `handleOrderStatusUpdate(payload)`: acknowledge when the order is
unknown, otherwise map and apply the shipment status, then update the
tracking fields when `tracking_number || shipment_id` is truthy. -/
def handleOrderStatusUpdate (s : Store) (p : Payload) (now : Nat) :
    Except JsError WebhookResp × Store :=
  match findOrderByShiprocketId s p.order_id with
  | none => (.ok .acknowledged, s)
  | some o =>
    match updateOrderStatusSvc s o.id (mapShipmentStatus p.shipment_status) now with
    | (.error e, s') => (.error e, s')
    | (.ok _, s1) =>
      if strTruthy p.tracking_number || strTruthy p.shipment_id then
        match updateTrackingInfoSvc s1 o.id p.tracking_number p.shipment_id with
        | (.error e, s') => (.error e, s')
        | (.ok _, s2) => (.ok (.success none), s2)
      else (.ok (.success none), s1)

/-- `handleOrderWebhook(rawBody, hmacHeader)`: verify the signature over
the raw body, *then* parse (`JSON.parse` is the abstract `parse` oracle,
an `Except` because it can throw), classify, and dispatch.  The wrapping
`try`/`catch` around the dispatch only logs and rethrows. -/
def handleOrderWebhook (mac : String → String → List Nat) (secretKey : String)
    (parse : String → Except JsError Payload) (s : Store) (rawBody : String)
    (hmacHeader : Option String) (timestamp random now : Nat) :
    Except JsError WebhookResp × Store :=
  match verifyIncomingHMAC mac secretKey rawBody hmacHeader with
  | .error e => (.error e, s)
  | .ok _ =>
    match parse rawBody with
    | .error e => (.error e, s)
    | .ok p =>
      match resolveEventType p with
      | "ORDER_SUCCESS" => handleOrderSuccess s p timestamp random
      | "ORDER_FAILED" => handleOrderFailed s p
      | "ORDER_CANCELLED" => handleOrderCancelled s p now
      | "ORDER_STATUS_UPDATE" => handleOrderStatusUpdate s p now
      | "ORDER_INITIATED" => (.ok .acknowledged, s)
      | _ => (.ok .ignored, s)

/-! ## Outbound retry queue (`shiprocketWebhookQueue.service.ts`) -/

/-- One job of the in-memory outbound retry queue. -/
structure WebhookJob where
  jobType : String
  id : String
  attempts : Nat
  maxAttempts : Nat
  nextRetry : Int
deriving Repr, DecidableEq

/-- `RETRY_DELAYS = [5000, 30000, 300000]` (5s, 30s, 5min). -/
def RETRY_DELAYS : List Int := [5000, 30000, 300000]

/-- `MAX_ATTEMPTS = 3`. -/
def MAX_ATTEMPTS : Nat := 3

/-- `addToQueue(type, id)` pushes a fresh job with `attempts: 0` that is
immediately eligible (`nextRetry: new Date()`). -/
def addToQueue (q : List WebhookJob) (jobType id : String) (now : Int) : List WebhookJob :=
  q ++ [{ jobType := jobType, id := id, attempts := 0,
          maxAttempts := MAX_ATTEMPTS, nextRetry := now }]

/-- Outcome of one outbound HTTP POST (the `axios.post` oracle):
either a response or a thrown request error. -/
inductive HttpOutcome where
  | ok
  | fail
deriving Repr, DecidableEq

/-- The `axios.post(.../wh/v1/custom/product, ...)` call:
a failed request is a thrown error. -/
def axiosPostProduct : HttpOutcome → Except JsError Unit
  | .ok => .ok ()
  | .fail => .error (.plainError "request failed")

/-- `sendProductUpdateWebhook(productId)`: the entire body sits in a
`try` whose `catch` logs and `return null` — so the function returns
normally (`none`) on a failed send instead of letting the error
propagate. -/
def sendProductUpdateWebhook (outcome : HttpOutcome) : Option Unit :=
  match axiosPostProduct outcome with
  | .ok r => some r
  | .error _ => none

/-- One iteration of the `processQueue` drain loop at time `now`, with
`send` the `Except`-valued result of the awaited webhook call (a thrown
error is `.error`): not-yet-eligible head → sleep & re-check (queue
unchanged); successful send → dequeue; thrown error → increment
`attempts`, dropping the job at `maxAttempts` and otherwise scheduling
`nextRetry` from `RETRY_DELAYS[attempts - 1]`. -/
def processQueueIter (now : Int) (send : Except JsError (Option Unit))
    (q : List WebhookJob) : List WebhookJob :=
  match q with
  | [] => []
  | job :: rest =>
    if job.nextRetry > now then q
    else
      match send with
      | .ok _ => rest
      | .error _ =>
        let attempts' := job.attempts + 1
        if job.maxAttempts ≤ attempts' then rest
        else { job with attempts := attempts',
                        nextRetry := now + RETRY_DELAYS.getD (attempts' - 1) 0 } :: rest

/-- The drain-loop iteration as it actually runs for a `'product'` job:
the awaited call is `sendProductUpdateWebhook`, which never throws, so
`send` is always `.ok`. -/
def processProductIter (now : Int) (outcome : HttpOutcome) (q : List WebhookJob) :
    List WebhookJob :=
  processQueueIter now (.ok (sendProductUpdateWebhook outcome)) q

deriving instance DecidableEq for Except

/-- A payload with every field absent — the base the concrete test
payloads below are built from. -/
def basePayload : Payload :=
  { order_id := "", cart_items := [], status := none, phone := none, email := none,
    payment_type := none, payment_status := none, total_amount_payable := none,
    shipping_address := none, billing_address := none, coupon_codes := [],
    coupon_discount := none, prepaid_discount := none, subtotal_price := none,
    shipping_charges := none, shipping_plan := none, rto_prediction := none,
    edd := none, cart_id := none, fastrr_order_id := none, event := none,
    shipment_status := none, tracking_number := none, shipment_id := none,
    reason := none, cancellation_reason := none }

/-! ## Stock-ledger lemmas -/

/-- All increments applied with negated quantities: the pure effect of a
*successful* `updateStock` run. -/
def incNegAll (vs : List Variant) (items : List OrderItem) : List Variant :=
  items.foldl (fun acc it => incOne acc it.variantId (-it.quantity)) vs

theorem findVariant?_cons_self (v : Variant) (rest : List Variant) (id : Nat)
    (h : v.id = id) : findVariant? (v :: rest) id = some v := by
  unfold findVariant?
  exact List.find?_cons_of_pos _ (by simp [h])

theorem findVariant?_cons_ne (v : Variant) (rest : List Variant) (id : Nat)
    (h : ¬ v.id = id) : findVariant? (v :: rest) id = findVariant? rest id := by
  unfold findVariant?
  exact List.find?_cons_of_neg _ (by simp [h])

theorem incOne_cons_self (v : Variant) (rest : List Variant) (id : Nat) (q : Int)
    (h : v.id = id) : incOne (v :: rest) id q = { v with stock := v.stock + q } :: rest := by
  simp [incOne, h]

theorem incOne_cons_ne (v : Variant) (rest : List Variant) (id : Nat) (q : Int)
    (h : ¬ v.id = id) : incOne (v :: rest) id q = v :: incOne rest id q := by
  simp [incOne, h]

theorem incOne_find_self (vs : List Variant) (id : Nat) (q : Int) :
    findVariant? (incOne vs id q) id =
      (findVariant? vs id).map (fun v => { v with stock := v.stock + q }) := by
  induction vs with
  | nil => simp [incOne, findVariant?]
  | cons v rest ih =>
    by_cases h : v.id = id
    · rw [incOne_cons_self v rest id q h,
        findVariant?_cons_self { v with stock := v.stock + q } rest id h,
        findVariant?_cons_self v rest id h]
      rfl
    · rw [incOne_cons_ne v rest id q h, findVariant?_cons_ne v (incOne rest id q) id h,
        findVariant?_cons_ne v rest id h, ih]

theorem incOne_find_other (vs : List Variant) (id id' : Nat) (q : Int) (h : id' ≠ id) :
    findVariant? (incOne vs id q) id' = findVariant? vs id' := by
  induction vs with
  | nil => simp [incOne]
  | cons v rest ih =>
    by_cases hv : v.id = id
    · have hv' : ¬ v.id = id' := by rw [hv]; exact fun hx => h hx.symm
      rw [incOne_cons_self v rest id q hv,
        findVariant?_cons_ne { v with stock := v.stock + q } rest id' hv',
        findVariant?_cons_ne v rest id' hv']
    · by_cases hvv : v.id = id'
      · rw [incOne_cons_ne v rest id q hv, findVariant?_cons_self v (incOne rest id q) id' hvv,
          findVariant?_cons_self v rest id' hvv]
      · rw [incOne_cons_ne v rest id q hv, findVariant?_cons_ne v (incOne rest id q) id' hvv,
          findVariant?_cons_ne v rest id' hvv, ih]

theorem incOne_comm (vs : List Variant) (a b : Nat) (p q : Int) :
    incOne (incOne vs a p) b q = incOne (incOne vs b q) a p := by
  induction vs with
  | nil => simp [incOne]
  | cons v rest ih =>
    by_cases ha : v.id = a <;> by_cases hb : v.id = b
    · rw [incOne_cons_self v rest a p ha,
        incOne_cons_self { v with stock := v.stock + p } rest b q hb,
        incOne_cons_self v rest b q hb,
        incOne_cons_self { v with stock := v.stock + q } rest a p ha]
      simp
      ring
    · rw [incOne_cons_self v rest a p ha,
        incOne_cons_ne { v with stock := v.stock + p } rest b q hb,
        incOne_cons_ne v rest b q hb]
      rw [incOne_cons_self v (incOne rest b q) a p ha]
    · rw [incOne_cons_ne v rest a p ha, incOne_cons_self v (incOne rest a p) b q hb,
        incOne_cons_self v rest b q hb,
        incOne_cons_ne { v with stock := v.stock + q } rest a p ha]
    · rw [incOne_cons_ne v rest a p ha, incOne_cons_ne v (incOne rest a p) b q hb,
        incOne_cons_ne v rest b q hb, incOne_cons_ne v (incOne rest b q) a p ha, ih]

theorem incOne_incOne (vs : List Variant) (id : Nat) (p q : Int) :
    incOne (incOne vs id p) id q = incOne vs id (p + q) := by
  induction vs with
  | nil => simp [incOne]
  | cons v rest ih =>
    by_cases h : v.id = id
    · rw [incOne_cons_self v rest id p h,
        incOne_cons_self { v with stock := v.stock + p } rest id q h,
        incOne_cons_self v rest id (p + q) h]
      simp
      ring
    · rw [incOne_cons_ne v rest id p h, incOne_cons_ne v (incOne rest id p) id q h,
        incOne_cons_ne v rest id (p + q) h, ih]

theorem incOne_zero (vs : List Variant) (id : Nat) : incOne vs id 0 = vs := by
  induction vs with
  | nil => simp [incOne]
  | cons v rest ih =>
    by_cases h : v.id = id
    · rw [incOne_cons_self v rest id 0 h]
      simp
    · rw [incOne_cons_ne v rest id 0 h, ih]

theorem decOne_cons_self_ok (v : Variant) (rest : List Variant) (id : Nat) (q : Int)
    (h : v.id = id) (hq : q ≤ v.stock) :
    decOne (v :: rest) id q = some ({ v with stock := v.stock - q } :: rest) := by
  simp [decOne, h, hq]

theorem decOne_cons_self_fail (v : Variant) (rest : List Variant) (id : Nat) (q : Int)
    (h : v.id = id) (hq : ¬ q ≤ v.stock) : decOne (v :: rest) id q = none := by
  simp [decOne, h, hq]

theorem decOne_cons_ne (v : Variant) (rest : List Variant) (id : Nat) (q : Int)
    (h : ¬ v.id = id) : decOne (v :: rest) id q = (decOne rest id q).map (v :: ·) := by
  simp [decOne, h]

/-- A successful guarded decrement is exactly an unguarded increment by
the negated quantity, and it certifies the guard. -/
theorem decOne_some_elim (vs : List Variant) (id : Nat) (q : Int) (vs' : List Variant)
    (h : decOne vs id q = some vs') :
    (∃ v, findVariant? vs id = some v ∧ q ≤ v.stock) ∧ vs' = incOne vs id (-q) := by
  induction vs generalizing vs' with
  | nil => simp [decOne] at h
  | cons v rest ih =>
    by_cases hv : v.id = id
    · by_cases hq : q ≤ v.stock
      · rw [decOne_cons_self_ok v rest id q hv hq] at h
        simp only [Option.some.injEq] at h
        subst h
        refine ⟨⟨v, findVariant?_cons_self v rest id hv, hq⟩, ?_⟩
        rw [incOne_cons_self v rest id (-q) hv]
        have harith : v.stock - q = v.stock + -q := by ring
        rw [harith]
      · rw [decOne_cons_self_fail v rest id q hv hq] at h
        exact absurd h (by simp)
    · rw [decOne_cons_ne v rest id q hv] at h
      match hrest : decOne rest id q with
      | none => rw [hrest] at h; exact absurd h (by simp)
      | some vs1 =>
        rw [hrest] at h
        simp only [Option.map_some', Option.some.injEq] at h
        obtain ⟨⟨w, hw, hwq⟩, hv1⟩ := ih vs1 hrest
        refine ⟨⟨w, ?_, hwq⟩, ?_⟩
        · rw [findVariant?_cons_ne v rest id hv]; exact hw
        · rw [incOne_cons_ne v rest id (-q) hv, ← h, hv1]

/-- The guard succeeds exactly when the variant exists with enough stock. -/
theorem decOne_eq_some_of (vs : List Variant) (id : Nat) (q : Int) (v : Variant)
    (hfind : findVariant? vs id = some v) (hq : q ≤ v.stock) :
    decOne vs id q = some (incOne vs id (-q)) := by
  induction vs with
  | nil => simp [findVariant?] at hfind
  | cons w rest ih =>
    by_cases hw : w.id = id
    · rw [findVariant?_cons_self w rest id hw] at hfind
      injection hfind with hwv
      subst hwv
      rw [decOne_cons_self_ok w rest id q hw hq, incOne_cons_self w rest id (-q) hw]
      have harith : w.stock - q = w.stock + -q := by ring
      rw [harith]
    · rw [findVariant?_cons_ne w rest id hw] at hfind
      rw [decOne_cons_ne w rest id q hw, incOne_cons_ne w rest id (-q) hw, ih hfind]
      rfl

/-- The guard fails exactly when the item has no stock cover:
variant absent, or stock below the quantity. -/
theorem decOne_none_iff (vs : List Variant) (it : OrderItem) :
    decOne vs it.variantId it.quantity = none ↔ hasStockFor vs it = false := by
  constructor
  · intro h
    unfold hasStockFor
    match hfind : findVariant? vs it.variantId with
    | none => rfl
    | some v =>
      simp only []
      by_cases hq : it.quantity ≤ v.stock
      · rw [decOne_eq_some_of vs it.variantId it.quantity v hfind hq] at h
        exact absurd h (by simp)
      · simp [hq]
  · intro h
    unfold hasStockFor at h
    match hfind : findVariant? vs it.variantId with
    | none =>
      match hdec : decOne vs it.variantId it.quantity with
      | none => rfl
      | some vs' =>
        obtain ⟨⟨v, hv, -⟩, -⟩ := decOne_some_elim vs it.variantId it.quantity vs' hdec
        rw [hfind] at hv
        exact absurd hv (by simp)
    | some v =>
      rw [hfind] at h
      simp only [decide_eq_false_iff_not] at h
      match hdec : decOne vs it.variantId it.quantity with
      | none => rfl
      | some vs' =>
        obtain ⟨⟨w, hw, hwq⟩, -⟩ := decOne_some_elim vs it.variantId it.quantity vs' hdec
        rw [hfind] at hw
        cases hw
        exact absurd hwq h

theorem incOne_nonneg (vs : List Variant) (id : Nat) (q : Int)
    (hvs : allStockNonneg vs) (hq : 0 ≤ q) : allStockNonneg (incOne vs id q) := by
  induction vs with
  | nil => simpa [incOne] using hvs
  | cons v rest ih =>
    have hv := hvs v (List.mem_cons_self v rest)
    have hrest : allStockNonneg rest := fun w hw => hvs w (List.mem_cons_of_mem v hw)
    by_cases h : v.id = id
    · rw [incOne_cons_self v rest id q h]
      intro w hw
      rcases List.mem_cons.mp hw with hwv | hwr
      · subst hwv; simpa using add_nonneg hv hq
      · exact hrest w hwr
    · rw [incOne_cons_ne v rest id q h]
      intro w hw
      rcases List.mem_cons.mp hw with hwv | hwr
      · subst hwv; exact hv
      · exact ih hrest w hwr

theorem decOne_nonneg (vs : List Variant) (id : Nat) (q : Int) (vs' : List Variant)
    (hvs : allStockNonneg vs) (h : decOne vs id q = some vs') : allStockNonneg vs' := by
  induction vs generalizing vs' with
  | nil => simp [decOne] at h
  | cons v rest ih =>
    have hv := hvs v (List.mem_cons_self v rest)
    have hrest : allStockNonneg rest := fun w hw => hvs w (List.mem_cons_of_mem v hw)
    by_cases hid : v.id = id
    · by_cases hq : q ≤ v.stock
      · rw [decOne_cons_self_ok v rest id q hid hq] at h
        cases h
        intro w hw
        rcases List.mem_cons.mp hw with hwv | hwr
        · subst hwv; simpa using sub_nonneg.mpr hq
        · exact hrest w hwr
      · rw [decOne_cons_self_fail v rest id q hid hq] at h
        exact absurd h (by simp)
    · rw [decOne_cons_ne v rest id q hid] at h
      match hrest' : decOne rest id q with
      | none => rw [hrest'] at h; exact absurd h (by simp)
      | some vs1 =>
        rw [hrest'] at h
        simp only [Option.map_some', Option.some.injEq] at h
        subst h
        intro w hw
        rcases List.mem_cons.mp hw with hwv | hwr
        · subst hwv; exact hv
        · exact ih vs1 hrest hrest' w hwr

/-- A successful transactional decrement preserves non-negativity of
every stock counter. -/
theorem updateStock_nonneg (items : List OrderItem) (vs vs' : List Variant)
    (hvs : allStockNonneg vs) (h : updateStock vs items = .ok vs') :
    allStockNonneg vs' := by
  induction items generalizing vs with
  | nil =>
    simp only [updateStock, updateStockLoop] at h
    cases h
    exact hvs
  | cons it rest ih =>
    simp only [updateStock, updateStockLoop] at h
    match hdec : decOne vs it.variantId it.quantity with
    | none => rw [hdec] at h; exact absurd h (by simp)
    | some vs1 =>
      rw [hdec] at h
      exact ih vs1 (decOne_nonneg vs it.variantId it.quantity vs1 hvs hdec) h

/-- The best-effort restore preserves non-negativity as long as the
restored quantities are themselves non-negative. -/
theorem restoreStock_nonneg (items : List OrderItem) (vs : List Variant)
    (hvs : allStockNonneg vs) (hq : ∀ it ∈ items, 0 ≤ it.quantity) :
    allStockNonneg (restoreStock vs items) := by
  induction items generalizing vs with
  | nil => simpa [restoreStock] using hvs
  | cons it rest ih =>
    simp only [restoreStock, List.foldl_cons] at *
    exact ih (incOne vs it.variantId it.quantity)
      (incOne_nonneg vs it.variantId it.quantity hvs (hq it (List.mem_cons_self it rest)))
      (fun x hx => hq x (List.mem_cons_of_mem it hx))

/-- `incOne` commutes with the folded negative increments. -/
theorem incOne_incNegAll (items : List OrderItem) (vs : List Variant) (a : Nat) (q : Int) :
    incOne (incNegAll vs items) a q = incNegAll (incOne vs a q) items := by
  induction items generalizing vs with
  | nil => simp [incNegAll]
  | cons it rest ih =>
    simp only [incNegAll, List.foldl_cons] at *
    rw [ih (incOne vs it.variantId (-it.quantity)),
      incOne_comm vs it.variantId a (-it.quantity) q]

/-- A successful `updateStock` run is, as a state transformer, exactly
the fold of unguarded negative increments. -/
theorem updateStock_ok_eq_incNegAll (items : List OrderItem) (vs vs' : List Variant)
    (h : updateStock vs items = .ok vs') : vs' = incNegAll vs items := by
  induction items generalizing vs with
  | nil =>
    simp only [updateStock, updateStockLoop] at h
    cases h
    simp [incNegAll]
  | cons it rest ih =>
    simp only [updateStock, updateStockLoop] at h
    match hdec : decOne vs it.variantId it.quantity with
    | none => rw [hdec] at h; exact absurd h (by simp)
    | some vs1 =>
      rw [hdec] at h
      obtain ⟨-, hv1⟩ := decOne_some_elim vs it.variantId it.quantity vs1 hdec
      subst hv1
      simpa [incNegAll] using ih (incOne vs it.variantId (-it.quantity)) h

/-- Restoring after the equivalent negative-increment fold is the
identity on the variant collection. -/
theorem restore_incNegAll (items : List OrderItem) (vs : List Variant) :
    restoreStock (incNegAll vs items) items = vs := by
  induction items generalizing vs with
  | nil => simp [incNegAll, restoreStock]
  | cons it rest ih =>
    have h1 : incNegAll vs (it :: rest)
        = incNegAll (incOne vs it.variantId (-it.quantity)) rest := by
      simp [incNegAll]
    have h2 : restoreStock (incNegAll vs (it :: rest)) (it :: rest)
        = restoreStock (incOne (incNegAll (incOne vs it.variantId (-it.quantity)) rest)
            it.variantId it.quantity) rest := by
      rw [h1]
      simp [restoreStock]
    rw [h2, incOne_incNegAll, incOne_incOne, neg_add_cancel, incOne_zero, ih]

/-- Round trip: restoring the very items whose decrement succeeded
returns every stock counter to its pre-decrement value. -/
theorem restoreStock_updateStock (items : List OrderItem) (vs vs' : List Variant)
    (h : updateStock vs items = .ok vs') : restoreStock vs' items = vs := by
  rw [updateStock_ok_eq_incNegAll items vs vs' h]
  exact restore_incNegAll items vs

theorem hasStockFor_true_elim (vs : List Variant) (it : OrderItem)
    (h : hasStockFor vs it = true) :
    ∃ v, findVariant? vs it.variantId = some v ∧ it.quantity ≤ v.stock := by
  unfold hasStockFor at h
  match hfind : findVariant? vs it.variantId with
  | none => rw [hfind] at h; exact absurd h (by simp)
  | some v =>
    rw [hfind] at h
    exact ⟨v, rfl, by simpa using h⟩

theorem hasStockFor_incOne_ne (vs : List Variant) (id : Nat) (q : Int) (it : OrderItem)
    (h : it.variantId ≠ id) : hasStockFor (incOne vs id q) it = hasStockFor vs it := by
  unfold hasStockFor
  rw [incOne_find_other vs id it.variantId q h]

/-- Subtracting a quantity is incrementing by its negation, at the level
of the per-variant update functions. -/
theorem stockSubFun_eq (q : Int) :
    (fun v : Variant => { v with stock := v.stock + -q })
      = (fun v : Variant => { v with stock := v.stock - q }) := by
  funext v
  simp only [Variant.mk.injEq, true_and]
  ring

/-- Success direction of the amended all-or-nothing property: for a batch
over pairwise-distinct variants, item-wise availability guarantees the
transaction commits, decrementing each touched variant by exactly its
item's quantity and leaving every other variant untouched. -/
theorem updateStock_ok_of_available (items : List OrderItem) (vs : List Variant)
    (hnd : (items.map (fun it => it.variantId)).Nodup)
    (hav : ∀ it ∈ items, hasStockFor vs it = true) :
    ∃ vs', updateStock vs items = .ok vs'
      ∧ (∀ it ∈ items, findVariant? vs' it.variantId =
          (findVariant? vs it.variantId).map
            (fun v => { v with stock := v.stock - it.quantity }))
      ∧ (∀ id, id ∉ items.map (fun it => it.variantId) →
          findVariant? vs' id = findVariant? vs id) := by
  induction items generalizing vs with
  | nil => exact ⟨vs, rfl, by simp, fun id _ => rfl⟩
  | cons it rest ih =>
    obtain ⟨v, hfind, hq⟩ :=
      hasStockFor_true_elim vs it (hav it (List.mem_cons_self it rest))
    have hdec := decOne_eq_some_of vs it.variantId it.quantity v hfind hq
    have hnd2 : (it.variantId :: rest.map (fun x => x.variantId)).Nodup := by
      simpa only [List.map_cons] using hnd
    have hnd' := List.nodup_cons.mp hnd2
    have hnotin : it.variantId ∉ rest.map (fun x => x.variantId) := hnd'.1
    have hndrest : (rest.map (fun x => x.variantId)).Nodup := hnd'.2
    have hne : ∀ it' ∈ rest, it'.variantId ≠ it.variantId := by
      intro it' hmem heq
      exact hnotin (heq ▸ List.mem_map_of_mem (fun x => x.variantId) hmem)
    have hav1 : ∀ it' ∈ rest, hasStockFor (incOne vs it.variantId (-it.quantity)) it' = true := by
      intro it' hmem
      rw [hasStockFor_incOne_ne vs it.variantId (-it.quantity) it' (hne it' hmem)]
      exact hav it' (List.mem_cons_of_mem it hmem)
    obtain ⟨vs', hok, hitems, hother⟩ :=
      ih (incOne vs it.variantId (-it.quantity)) hndrest hav1
    refine ⟨vs', ?_, ?_, ?_⟩
    · simp only [updateStock, updateStockLoop, hdec]
      exact hok
    · intro it' hmem
      rcases List.mem_cons.mp hmem with h | h
      · subst h
        rw [hother it'.variantId (by simpa using hnotin),
          incOne_find_self vs it'.variantId (-it'.quantity), stockSubFun_eq]
      · rw [hitems it' h,
          incOne_find_other vs it.variantId it'.variantId (-it.quantity) (hne it' h)]
    · intro id hid
      have hid1 : id ∉ rest.map (fun x => x.variantId) := by
        intro hmem; exact hid (by simp [hmem])
      have hidh : id ≠ it.variantId := by
        intro heq; exact hid (by simp [heq])
      rw [hother id hid1, incOne_find_other vs it.variantId id (-it.quantity) hidh]

/-- Failure direction: over pairwise-distinct variants, any item whose
guard does not hold against the initial stocks makes the whole
transaction abort with the insufficient-stock error of a failing
variant. -/
theorem updateStock_error_of_short (items : List OrderItem) (vs : List Variant)
    (hnd : (items.map (fun it => it.variantId)).Nodup)
    (hshort : ∃ it ∈ items, hasStockFor vs it = false) :
    ∃ it' ∈ items, updateStock vs items = .error (insufficientMsg it'.variantId)
      ∧ hasStockFor vs it' = false := by
  induction items generalizing vs with
  | nil => simp at hshort
  | cons it rest ih =>
    match hdec : decOne vs it.variantId it.quantity with
    | none =>
      refine ⟨it, List.mem_cons_self it rest, ?_, (decOne_none_iff vs it).mp hdec⟩
      simp only [updateStock, updateStockLoop, hdec]
    | some vs1 =>
      obtain ⟨-, hv1⟩ := decOne_some_elim vs it.variantId it.quantity vs1 hdec
      subst hv1
      have hheadok : ¬ hasStockFor vs it = false := by
        intro hfalse
        rw [(decOne_none_iff vs it).mpr hfalse] at hdec
        cases hdec
      obtain ⟨it0, hmem0, hfalse0⟩ := hshort
      have hmem0' : it0 ∈ rest := by
        rcases List.mem_cons.mp hmem0 with h | h
        · subst h; exact absurd hfalse0 hheadok
        · exact h
      have hnd2 : (it.variantId :: rest.map (fun x => x.variantId)).Nodup := by
        simpa only [List.map_cons] using hnd
      have hnd' := List.nodup_cons.mp hnd2
      have hne : ∀ it' ∈ rest, it'.variantId ≠ it.variantId := by
        intro it' hmem heq
        exact hnd'.1 (heq ▸ List.mem_map_of_mem (fun x => x.variantId) hmem)
      have hshort1 : ∃ x ∈ rest,
          hasStockFor (incOne vs it.variantId (-it.quantity)) x = false := by
        refine ⟨it0, hmem0', ?_⟩
        rw [hasStockFor_incOne_ne vs it.variantId (-it.quantity) it0 (hne it0 hmem0')]
        exact hfalse0
      obtain ⟨it', hmem', herr, hfalse'⟩ :=
        ih (incOne vs it.variantId (-it.quantity)) hnd'.2 hshort1
      refine ⟨it', List.mem_cons_of_mem it hmem', ?_, ?_⟩
      · simp only [updateStock, updateStockLoop, hdec]
        exact herr
      · rw [← hasStockFor_incOne_ne vs it.variantId (-it.quantity) it' (hne it' hmem')]
        exact hfalse'

theorem b64CharVal_b64Char : ∀ n < 64, b64CharVal (b64Char n) = some n := by decide

theorem b64CharVal_pad : b64CharVal '=' = none := by decide

/-- Decoding an encoding recovers the original byte list. -/
theorem b64Chunks_roundtrip : ∀ l : List Nat, (∀ x ∈ l, x < 256) →
    b64DecodeSextets ((b64EncodeChunks l).filterMap b64CharVal) = l
  | [], _ => rfl
  | [a], h => by
    have ha : a < 256 := h a (by simp)
    have h1 : b64CharVal (b64Char (a / 4)) = some (a / 4) :=
      b64CharVal_b64Char _ (by omega)
    have h2 : b64CharVal (b64Char (a % 4 * 16)) = some (a % 4 * 16) :=
      b64CharVal_b64Char _ (by omega)
    simp only [b64EncodeChunks, List.filterMap_cons, h1, h2, b64CharVal_pad,
      List.filterMap_nil, b64DecodeSextets, List.cons.injEq, and_true]
    omega
  | [a, b], h => by
    have ha : a < 256 := h a (by simp)
    have hb : b < 256 := h b (by simp)
    have h1 : b64CharVal (b64Char (a / 4)) = some (a / 4) :=
      b64CharVal_b64Char _ (by omega)
    have h2 : b64CharVal (b64Char (a % 4 * 16 + b / 16)) = some (a % 4 * 16 + b / 16) :=
      b64CharVal_b64Char _ (by omega)
    have h3 : b64CharVal (b64Char (b % 16 * 4)) = some (b % 16 * 4) :=
      b64CharVal_b64Char _ (by omega)
    simp only [b64EncodeChunks, List.filterMap_cons, h1, h2, h3, b64CharVal_pad,
      List.filterMap_nil, b64DecodeSextets, List.cons.injEq, and_true]
    omega
  | a :: b :: c :: rest, h => by
    have ha : a < 256 := h a (by simp)
    have hb : b < 256 := h b (by simp)
    have hc : c < 256 := h c (by simp)
    have h1 : b64CharVal (b64Char (a / 4)) = some (a / 4) :=
      b64CharVal_b64Char _ (by omega)
    have h2 : b64CharVal (b64Char (a % 4 * 16 + b / 16)) = some (a % 4 * 16 + b / 16) :=
      b64CharVal_b64Char _ (by omega)
    have h3 : b64CharVal (b64Char (b % 16 * 4 + c / 64)) = some (b % 16 * 4 + c / 64) :=
      b64CharVal_b64Char _ (by omega)
    have h4 : b64CharVal (b64Char (c % 64)) = some (c % 64) :=
      b64CharVal_b64Char _ (by omega)
    have htail := b64Chunks_roundtrip rest (fun x hx => h x (by simp [hx]))
    simp only [b64EncodeChunks, List.filterMap_cons, h1, h2, h3, h4,
      b64DecodeSextets, List.cons.injEq]
    refine ⟨by omega, by omega, by omega, htail⟩

/-- `Buffer.from(base64Encode(bytes), 'base64')` gives back `bytes`. -/
theorem base64_roundtrip (l : List Nat) (h : ∀ x ∈ l, x < 256) :
    base64Decode (base64Encode l) = l := by
  unfold base64Decode base64Encode
  exact b64Chunks_roundtrip l h

theorem strTruthy_some (s : String) (h : s ≠ "") : strTruthy (some s) = true := by
  unfold strTruthy
  rw [Bool.not_eq_true']
  rw [Bool.eq_false_iff]
  intro hx
  exact h ((String.isEmpty_iff s).mp hx)

theorem base64Encode_ne_empty (l : List Nat) (h : l ≠ []) : base64Encode l ≠ "" := by
  intro he
  have hd : b64EncodeChunks l = [] := congrArg String.data he
  match l with
  | [] => exact h rfl
  | [a] => simp [b64EncodeChunks] at hd
  | [a, b] => simp [b64EncodeChunks] at hd
  | a :: b :: c :: rest => simp [b64EncodeChunks] at hd

/-- A correctly computed signature over the same raw body verifies. -/
theorem verifyIncomingHMAC_ok (mac : String → String → List Nat) (k body : String)
    (hne : mac k body ≠ []) :
    verifyIncomingHMAC mac k body (some (base64Encode (mac k body))) = .ok () := by
  unfold verifyIncomingHMAC
  rw [strTruthy_some _ (base64Encode_ne_empty _ hne)]
  simp

/-- An absent (or empty, hence falsy) signature header is rejected. -/
theorem verifyIncomingHMAC_missing (mac : String → String → List Nat) (k body : String)
    (hdr : Option String) (h : strTruthy hdr = false) :
    verifyIncomingHMAC mac k body hdr = .error (.plainError missingHmacMsg) := by
  unfold verifyIncomingHMAC
  rw [h]
  simp

/-- Any supplied signature whose decoded bytes differ from the digest of
the raw body is rejected (either by the length guard of
`timingSafeEqual` or by the byte comparison). -/
theorem verifyIncomingHMAC_reject (mac : String → String → List Nat) (k body sig : String)
    (hb : ∀ x ∈ mac k body, x < 256)
    (hne : base64Decode sig ≠ mac k body) (hs : sig ≠ "") :
    ∃ msg, verifyIncomingHMAC mac k body (some sig) = .error (.plainError msg) := by
  unfold verifyIncomingHMAC
  rw [strTruthy_some sig hs]
  simp only [Option.getD_some, if_true]
  rw [base64_roundtrip _ hb]
  by_cases hlen : (mac k body).length ≠ (base64Decode sig).length
  · exact ⟨timingSafeLengthMsg, by simp [hlen]⟩
  · have hx : ¬ (mac k body = base64Decode sig) := fun hx => hne hx.symm
    exact ⟨invalidHmacMsg, by simp [hlen, hx]⟩

/-! ## Concrete fixtures for witnesses and counterexamples -/

/-- A variant with 4 units in stock. -/
def sampleVariant : Variant :=
  { id := 1, shiprocketVariantId := "SR1", productId := 10, sku := "SKU1",
    attrs := "", image := none, price := 100, stock := 4 }

/-- An order item against `sampleVariant` with the given quantity. -/
def sampleItem (q : Int) : OrderItem :=
  { variantId := 1, shiprocketVariantId := "SR1", productName := "Rose",
    sku := "SKU1", attrs := "", image := none, quantity := q, price := 100,
    subtotal := 100 * q }

/-- A store holding just `sampleVariant` and its parent product. -/
def sampleStore : Store :=
  { variants := [sampleVariant], products := [{ id := 10, name := "Rose" }],
    orders := [], nextOrderId := 50 }

/-! ## Claims -/

/-- C1, counterexample.  The claim promises success whenever "every
item's variant has stock at least its requested quantity".  With two
batch items against the *same* variant (stock 4, quantities 3 and 3) each
item's guard holds against the stored stock, yet the sequential guarded
decrement aborts with the insufficient-stock error, so the claim as
stated is false. -/
theorem C1_counterexample :
    (∀ it ∈ [sampleItem 3, sampleItem 3], hasStockFor [sampleVariant] it = true)
    ∧ updateStock [sampleVariant] [sampleItem 3, sampleItem 3]
        = Except.error (insufficientMsg 1) := by
  constructor
  · decide
  · decide

/-- C1 (amended): for every batch of order items over pairwise-distinct
variants, the Stock Ledger decrement is all-or-nothing: if every item's
variant has stock at least its requested quantity the transaction
commits, decrementing each item's variant by exactly its quantity and
touching no other variant; if any item's requested quantity exceeds its
variant's available stock (or the variant is absent) the operation fails
with the insufficient-stock error naming a failing variant and no
variant's stock changes. -/
theorem C1_updateStock_all_or_nothing (s : Store) (items : List OrderItem)
    (hnd : (items.map (fun it => it.variantId)).Nodup) :
    ((∀ it ∈ items, hasStockFor s.variants it = true) →
      ∃ vs', updateStock s.variants items = .ok vs'
        ∧ runUpdateStock s items = (.ok (), { s with variants := vs' })
        ∧ (∀ it ∈ items, findVariant? vs' it.variantId =
            (findVariant? s.variants it.variantId).map
              (fun v => { v with stock := v.stock - it.quantity }))
        ∧ (∀ id, id ∉ items.map (fun it => it.variantId) →
            findVariant? vs' id = findVariant? s.variants id))
    ∧ ((∃ it ∈ items, hasStockFor s.variants it = false) →
      ∃ it' ∈ items,
        updateStock s.variants items = .error (insufficientMsg it'.variantId)
        ∧ hasStockFor s.variants it' = false
        ∧ runUpdateStock s items = (.error (insufficientMsg it'.variantId), s)) := by
  constructor
  · intro hav
    obtain ⟨vs', hok, hitems, hother⟩ := updateStock_ok_of_available items s.variants hnd hav
    exact ⟨vs', hok, by simp [runUpdateStock, hok], hitems, hother⟩
  · intro hshort
    obtain ⟨it', hmem, herr, hfalse⟩ := updateStock_error_of_short items s.variants hnd hshort
    exact ⟨it', hmem, herr, hfalse, by simp [runUpdateStock, herr]⟩

/-- C1, witness: a one-item batch with sufficient stock commits and
decrements the variant from 4 to 1. -/
theorem C1_witness :
    ∃ vs', updateStock sampleStore.variants [sampleItem 3] = .ok vs'
      ∧ runUpdateStock sampleStore [sampleItem 3] = (.ok (), { sampleStore with variants := vs' })
      ∧ (∀ it ∈ [sampleItem 3], findVariant? vs' it.variantId =
          (findVariant? sampleStore.variants it.variantId).map
            (fun v => { v with stock := v.stock - it.quantity }))
      ∧ (∀ id, id ∉ [sampleItem 3].map (fun it => it.variantId) →
          findVariant? vs' id = findVariant? sampleStore.variants id) :=
  (C1_updateStock_all_or_nothing sampleStore [sampleItem 3] (by decide)).1 (by decide)

/-- C4: stock non-negativity is an invariant of the Stock Ledger: a
successful decrement preserves it (each guard certifies the subtraction
stays non-negative), an aborted decrement leaves the variants untouched,
the cancellation-time restore preserves it for the non-negative
quantities order items carry, and a decrement failure inside
`createOrderFromWebhook` makes the whole order-creation call fail with
the thrown insufficient-stock error, stocks unchanged. -/
theorem C4_stock_nonneg_invariant :
    (∀ (vs vs' : List Variant) (items : List OrderItem), allStockNonneg vs →
        updateStock vs items = .ok vs' → allStockNonneg vs')
    ∧ (∀ (s : Store) (items : List OrderItem) (m : String),
        updateStock s.variants items = .error m → (runUpdateStock s items).2 = s)
    ∧ (∀ (vs : List Variant) (items : List OrderItem), allStockNonneg vs →
        (∀ it ∈ items, 0 ≤ it.quantity) → allStockNonneg (restoreStock vs items))
    ∧ (∀ (s : Store) (p : Payload) (t r : Nat) (items : List OrderItem) (m : String),
        p.status = some "SUCCESS" →
        findOrderByShiprocketId s p.order_id = none →
        buildOrderItems s p.cart_items = .ok items →
        updateStock s.variants items = .error m →
        (createOrderFromWebhook s p t r).1 = .error (.plainError m)
          ∧ (createOrderFromWebhook s p t r).2.variants = s.variants) := by
  refine ⟨?_, ?_, ?_, ?_⟩
  · intro vs vs' items hvs h
    exact updateStock_nonneg items vs vs' hvs h
  · intro s items m h
    simp [runUpdateStock, h]
  · intro vs items hvs hq
    exact restoreStock_nonneg items vs hvs hq
  · intro s p t r items m h1 h2 h3 h4
    constructor
    · simp [createOrderFromWebhook, h1, h2, h3, h4]
    · simp [createOrderFromWebhook, h1, h2, h3, h4]

/-- A success payload requesting more units (9) than `sampleVariant`
holds (4). -/
def overdrawPayload : Payload :=
  { basePayload with
    order_id := "SR-ORD-2", status := some "SUCCESS",
    cart_items := [{ variant_id := "SR1", quantity := 9 }] }

/-- C4, witness: on the sample store (stock 4, all non-negative), a
successful decrement of 3 keeps every stock non-negative; a decrement of
9 aborts leaving the store unchanged; restoring quantity 3 keeps stocks
non-negative; and the whole `createOrderFromWebhook` fails when its
stock step does. -/
theorem C4_witness :
    allStockNonneg [{ sampleVariant with stock := 1 }]
    ∧ (runUpdateStock sampleStore [sampleItem 9]).2 = sampleStore
    ∧ allStockNonneg (restoreStock [sampleVariant] [sampleItem 3])
    ∧ (createOrderFromWebhook sampleStore overdrawPayload 0 0).1
        = .error (.plainError (insufficientMsg 1)) := by
  refine ⟨?_, ?_, ?_, ?_⟩
  · exact C4_stock_nonneg_invariant.1 [sampleVariant] [{ sampleVariant with stock := 1 }]
      [sampleItem 3] (by decide) (by decide)
  · exact C4_stock_nonneg_invariant.2.1 sampleStore [sampleItem 9] (insufficientMsg 1)
      (by decide)
  · exact C4_stock_nonneg_invariant.2.2.1 [sampleVariant] [sampleItem 3] (by decide)
      (by decide)
  · exact (C4_stock_nonneg_invariant.2.2.2 sampleStore overdrawPayload 0 0 [sampleItem 9]
      (insufficientMsg 1) (by decide) (by decide) (by decide) (by decide)).1

/-- C2: `createOrderFromWebhook` is idempotent on the external order
identifier: when the store already holds an order with the payload's
`order_id`, a success payload returns that stored order and the store —
orders and variant stocks included — is completely unchanged (no second
order, no second stock decrement). -/
theorem C2_idempotent (s : Store) (p : Payload) (t r : Nat) (o : Order)
    (h1 : p.status = some "SUCCESS")
    (h2 : findOrderByShiprocketId s p.order_id = some o) :
    createOrderFromWebhook s p t r = (.ok (some o), s) := by
  simp [createOrderFromWebhook, h1, h2]

/-- C5: a payload whose top-level status is not the `'SUCCESS'` sentinel
makes `createOrderFromWebhook` a silent no-op: it returns `null` (no
order, no error) and the store is unchanged. -/
theorem C5_non_success_noop (s : Store) (p : Payload) (t r : Nat)
    (h : p.status ≠ some "SUCCESS") :
    createOrderFromWebhook s p t r = (.ok none, s) := by
  simp [createOrderFromWebhook, h]

/-- A success payload over the sample store: one item of quantity 2
against `sampleVariant` (price 100) and a provider-supplied total of 500
(far from the computed 200, so the mismatch warning fires). -/
def successPayload : Payload :=
  { basePayload with
    order_id := "SR-ORD-1", status := some "SUCCESS",
    cart_items := [{ variant_id := "SR1", quantity := 2 }],
    total_amount_payable := some 500 }

/-- An order already stored under the external id `"SR-ORD-1"`. -/
def sampleOrder : Order :=
  { id := 42, shiprocketOrderId := "SR-ORD-1", orderNumber := "ORD1700000000000123",
    items := [sampleItem 2], shippingAddress := none, billingAddress := none,
    paymentType := "PREPAID", paymentStatus := "PAID",
    pricing := { subtotal := 200, discount := 0, prepaidDiscount := 0,
                 shippingCharges := 0, tax := 0, total := 200 },
    appliedCouponCode := none, appliedCouponDiscount := 0, shippingPlan := none,
    rtoPrediction := none, estimatedDeliveryDate := none, shiprocketCartId := none,
    shiprocketFastrrOrderId := none, orderStatus := "CONFIRMED",
    cancellationReason := none, cancelledAt := none, deliveredAt := none,
    trackingNumber := none, shiprocketShipmentId := none }

/-- The sample store with `sampleOrder` already persisted. -/
def storeWithOrder : Store := { sampleStore with orders := [sampleOrder] }

/-- C2, witness: redelivering the success payload for an already-stored
external order id returns the stored order and leaves the store — stocks
included — untouched. -/
theorem C2_witness :
    createOrderFromWebhook storeWithOrder successPayload 0 0
      = (.ok (some sampleOrder), storeWithOrder) :=
  C2_idempotent storeWithOrder successPayload 0 0 sampleOrder (by decide) (by decide)

/-- C5, witness: a `FAILED`-status payload is a silent no-op. -/
theorem C5_witness :
    createOrderFromWebhook sampleStore { successPayload with status := some "FAILED" } 0 0
      = (.ok none, sampleStore) :=
  C5_non_success_noop sampleStore { successPayload with status := some "FAILED" } 0 0
    (by decide)

/-- C7: on the creation path, the computed total is
`subtotal − discount − prepaidDiscount + shippingCharges + tax` (tax
fixed at 0); the persisted order's total is the provider's
`total_amount_payable` whenever one is supplied (the computed total only
backs its absence); and a mismatch between the two never fails the
operation — after the pricing step the only failure source left is the
stock decrement. -/
theorem C7_pricing_provider_wins (s : Store) (p : Payload) (t r : Nat)
    (items : List OrderItem)
    (h1 : p.status = some "SUCCESS")
    (h2 : findOrderByShiprocketId s p.order_id = none)
    (h3 : buildOrderItems s p.cart_items = .ok items) :
    ∃ ord, (createOrderFromWebhook s p t r).2.orders = s.orders ++ [ord]
      ∧ ord.pricing = buildPricing p items
      ∧ ord.pricing.total = p.total_amount_payable.getD (computedTotal p items)
      ∧ (∀ tp, p.total_amount_payable = some tp → ord.pricing.total = tp)
      ∧ computedTotal p items =
          computedSubtotal p items - p.coupon_discount.getD 0 - p.prepaid_discount.getD 0
            + p.shipping_charges.getD 0 + 0
      ∧ (createOrderFromWebhook s p t r).1 =
          (match updateStock s.variants items with
           | .ok _ => .ok (some ord)
           | .error m => .error (.plainError m)) := by
  refine ⟨buildOrder s p t r items, ?_, rfl, rfl, ?_, rfl, ?_⟩
  · match hstock : updateStock s.variants items with
    | .ok vs' => simp [createOrderFromWebhook, h1, h2, h3, hstock]
    | .error m => simp [createOrderFromWebhook, h1, h2, h3, hstock]
  · intro tp htp
    simp [buildOrder, buildPricing, htp]
  · match hstock : updateStock s.variants items with
    | .ok vs' => simp [createOrderFromWebhook, h1, h2, h3, hstock]
    | .error m => simp [createOrderFromWebhook, h1, h2, h3, hstock]

/-- C7, witness: with a provider total of 500 against a computed total of
200 (mismatch 300 > 1, so the warning fires), the order is still created
and persisted with total 500. -/
theorem C7_witness :
    pricingMismatchLogged successPayload [sampleItem 2] = true
    ∧ ∃ ord, (createOrderFromWebhook sampleStore successPayload 0 0).2.orders
        = sampleStore.orders ++ [ord]
      ∧ ord.pricing.total = 500 := by
  constructor
  · decide
  · obtain ⟨ord, horders, -, htotal, -, -, -⟩ :=
      C7_pricing_provider_wins sampleStore successPayload 0 0 [sampleItem 2]
        (by decide) (by decide) (by decide)
    refine ⟨ord, horders, ?_⟩
    rw [htotal]
    decide

/-- C9: `cancelOrder` fails with `NotFound` when the order id is unknown
(store untouched); for a stored order it returns the cancelled document
(status `CANCELLED`, timestamped, reason recorded) and restores stock for
every item — in particular, when the current variants are the result of
the order's own successful creation-time decrement, the post-cancel
variants are exactly the pre-order ones (decrement then restore nets to
the original). -/
theorem C9_cancel_restores_stock (s : Store) (oid : Nat) (reason : String) (now : Nat) :
    (findOrderById s oid = none →
      cancelOrderSvc s oid reason now = (.error (.notFound "Order not found"), s))
    ∧ (∀ o, findOrderById s oid = some o →
        (cancelOrderSvc s oid reason now).1 = .ok (cancelUpdate reason now o)
        ∧ (cancelUpdate reason now o).orderStatus = "CANCELLED"
        ∧ (cancelUpdate reason now o).cancelledAt = some now
        ∧ (cancelUpdate reason now o).cancellationReason = some reason
        ∧ (cancelUpdate reason now o).items = o.items
        ∧ (cancelOrderSvc s oid reason now).2.variants = restoreStock s.variants o.items
        ∧ (∀ vs0, updateStock vs0 o.items = .ok s.variants →
            (cancelOrderSvc s oid reason now).2.variants = vs0)) := by
  constructor
  · intro h
    simp [cancelOrderSvc, h]
  · intro o h
    refine ⟨by simp [cancelOrderSvc, h], rfl, rfl, rfl, rfl, ?_, ?_⟩
    · simp [cancelOrderSvc, h, cancelUpdate]
    · intro vs0 hvs0
      have hrestore : (cancelOrderSvc s oid reason now).2.variants
          = restoreStock s.variants o.items := by
        simp [cancelOrderSvc, h, cancelUpdate]
      rw [hrestore, restoreStock_updateStock o.items vs0 s.variants hvs0]

/-- C9, witness: cancelling the stored order (item quantity 2) on a store
whose variant stock 4 came from decrementing 6 restores the stock to 6;
cancelling an unknown id fails with `NotFound`. -/
theorem C9_witness :
    cancelOrderSvc storeWithOrder 999 "changed mind" 7
      = (.error (.notFound "Order not found"), storeWithOrder)
    ∧ (cancelOrderSvc storeWithOrder 42 "changed mind" 7).1
        = .ok (cancelUpdate "changed mind" 7 sampleOrder)
    ∧ (cancelOrderSvc storeWithOrder 42 "changed mind" 7).2.variants
        = [{ sampleVariant with stock := 6 }] := by
  refine ⟨?_, ?_, ?_⟩
  · exact (C9_cancel_restores_stock storeWithOrder 999 "changed mind" 7).1 (by decide)
  · exact ((C9_cancel_restores_stock storeWithOrder 42 "changed mind" 7).2 sampleOrder
      (by decide)).1
  · exact ((C9_cancel_restores_stock storeWithOrder 42 "changed mind" 7).2 sampleOrder
      (by decide)).2.2.2.2.2.2 [{ sampleVariant with stock := 6 }] (by decide)

/-- C10: for `ORDER_FAILED`, `ORDER_CANCELLED` and `ORDER_STATUS_UPDATE`
webhooks whose external order id matches no stored order, each handler
acknowledges without error and without touching the store — even though
the underlying `updatePaymentStatus`, `cancelOrder` and
`updateOrderStatus` operations all fail with `NotFound` on an absent
order, because the handlers check existence first. -/
theorem C10_unknown_order_acknowledged (s : Store) (p : Payload) (now : Nat)
    (h : findOrderByShiprocketId s p.order_id = none) :
    handleOrderFailed s p = (.ok .acknowledged, s)
    ∧ handleOrderCancelled s p now = (.ok .acknowledged, s)
    ∧ handleOrderStatusUpdate s p now = (.ok .acknowledged, s)
    ∧ (∀ oid, findOrderById s oid = none →
        updatePaymentStatusSvc s oid "FAILED" = (.error (.notFound "Order not found"), s)
        ∧ cancelOrderSvc s oid (cancelReasonOf p) now
            = (.error (.notFound "Order not found"), s)
        ∧ updateOrderStatusSvc s oid (mapShipmentStatus p.shipment_status) now
            = (.error (.notFound "Order not found"), s)) := by
  refine ⟨?_, ?_, ?_, ?_⟩
  · simp [handleOrderFailed, h]
  · simp [handleOrderCancelled, h]
  · simp [handleOrderStatusUpdate, h]
  · intro oid hoid
    exact ⟨by simp [updatePaymentStatusSvc, hoid], by simp [cancelOrderSvc, hoid],
      by simp [updateOrderStatusSvc, hoid]⟩

/-- C10, witness: on the sample store (no order with external id
`"SR-MISSING"`), all three handlers acknowledge and the underlying
operations reject the unknown internal id 999 with `NotFound`. -/
theorem C10_witness :
    handleOrderFailed sampleStore { basePayload with order_id := "SR-MISSING" }
      = (.ok .acknowledged, sampleStore)
    ∧ handleOrderCancelled sampleStore { basePayload with order_id := "SR-MISSING" } 3
        = (.ok .acknowledged, sampleStore)
    ∧ updatePaymentStatusSvc sampleStore 999 "FAILED"
        = (.error (.notFound "Order not found"), sampleStore) := by
  have hmain := C10_unknown_order_acknowledged sampleStore
    { basePayload with order_id := "SR-MISSING" } 3 (by decide)
  exact ⟨hmain.1, hmain.2.1, (hmain.2.2.2 999 (by decide)).1⟩

/-- C6, counterexample.  The claim says the classifier "returns one of
exactly" the six event kinds, but the explicit event field wins outright
*verbatim* (uppercased): a payload with `event: "refund_initiated"`
classifies as `"REFUND_INITIATED"`, outside the six-value vocabulary. -/
theorem C6_counterexample :
    resolveEventType { basePayload with event := some "refund_initiated" }
      = "REFUND_INITIATED"
    ∧ "REFUND_INITIATED" ∉ ["ORDER_SUCCESS", "ORDER_FAILED", "ORDER_CANCELLED",
        "ORDER_STATUS_UPDATE", "ORDER_INITIATED", "UNKNOWN"] := by
  constructor
  · decide
  · decide

/-- C6 (amended): a truthy explicit event-type field wins outright,
returned uppercased verbatim (hence possibly outside the six-value
vocabulary); in its absence the classifier returns one of exactly
ORDER_SUCCESS, ORDER_FAILED, ORDER_CANCELLED, ORDER_STATUS_UPDATE,
ORDER_INITIATED, UNKNOWN, resolved by the order-status vocabulary first,
then a present shipment-status field as ORDER_STATUS_UPDATE, then
UNKNOWN. -/
theorem C6_classifier_precedence (p : Payload) :
    (strTruthy p.event = true → resolveEventType p = jsToUpper (p.event.getD ""))
    ∧ (strTruthy p.event = false →
        resolveEventType p ∈ ["ORDER_SUCCESS", "ORDER_FAILED", "ORDER_CANCELLED",
          "ORDER_STATUS_UPDATE", "ORDER_INITIATED", "UNKNOWN"]
        ∧ (p.status.map jsToUpper = some "SUCCESS" → resolveEventType p = "ORDER_SUCCESS")
        ∧ (p.status.map jsToUpper = some "FAILED" → resolveEventType p = "ORDER_FAILED")
        ∧ (p.status.map jsToUpper = some "CANCELLED" →
            resolveEventType p = "ORDER_CANCELLED")
        ∧ (p.status.map jsToUpper = some "INITIATED" →
            resolveEventType p = "ORDER_INITIATED")
        ∧ (p.status.map jsToUpper ∉ ([some "SUCCESS", some "FAILED", some "CANCELLED",
              some "INITIATED"] : List (Option String)) →
            (strTruthy p.shipment_status = true →
              resolveEventType p = "ORDER_STATUS_UPDATE")
            ∧ (strTruthy p.shipment_status = false → resolveEventType p = "UNKNOWN"))) := by
  constructor
  · intro he
    simp [resolveEventType, he]
  · intro he
    unfold resolveEventType
    rw [he]
    simp only [Bool.false_eq_true, if_false]
    by_cases h1 : p.status.map jsToUpper = some "SUCCESS"
    · simp [h1]
    · by_cases h2 : p.status.map jsToUpper = some "FAILED"
      · simp [h1, h2]
      · by_cases h3 : p.status.map jsToUpper = some "CANCELLED"
        · simp [h1, h2, h3]
        · by_cases h4 : p.status.map jsToUpper = some "INITIATED"
          · simp [h1, h2, h3, h4]
          · by_cases h5 : strTruthy p.shipment_status = true
            · simp [h1, h2, h3, h4, h5]
            · simp [h1, h2, h3, h4, h5]

/-- C6, witness: without an event field, `status: "success"` classifies
as ORDER_SUCCESS, and with only a shipment status the payload classifies
as ORDER_STATUS_UPDATE. -/
theorem C6_witness :
    resolveEventType { basePayload with status := some "success" } = "ORDER_SUCCESS"
    ∧ resolveEventType { basePayload with shipment_status := some "RTO" }
        = "ORDER_STATUS_UPDATE" := by
  constructor
  · exact ((C6_classifier_precedence { basePayload with status := some "success" }).2
      (by decide)).2.1 (by decide)
  · exact ((((C6_classifier_precedence
      { basePayload with shipment_status := some "RTO" }).2
      (by decide)).2.2.2.2.2 (by decide)).1 (by decide))

theorem handleOrderWebhook_verify_error (mac : String → String → List Nat)
    (secretKey : String) (parse : String → Except JsError Payload) (s : Store)
    (rawBody : String) (hdr : Option String) (t r now : Nat) (e : JsError)
    (h : verifyIncomingHMAC mac secretKey rawBody hdr = .error e) :
    handleOrderWebhook mac secretKey parse s rawBody hdr t r now = (.error e, s) := by
  simp [handleOrderWebhook, h]

/-- C3: the webhook entry point verifies a base64 HMAC over the *raw*
body before any parsing: an absent header fails with the
missing-signature error for every conceivable parse function, with the
store untouched; the correctly computed signature verifies; a body
altered after signing (digest changed) is rejected whatever the parse
function; and a signature computed under a different key (digest
changed) is rejected.  The comparison is byte equality of the decoded
signatures — `timingSafeEqual`'s constant-time execution itself is a
timing property with no functional content. -/
theorem C3_signature_verification (mac : String → String → List Nat)
    (secretKey rawBody tamperedBody otherKey : String) (s : Store) (t r now : Nat) :
    (∀ hdr, strTruthy hdr = false →
      ∀ parse, handleOrderWebhook mac secretKey parse s rawBody hdr t r now
        = (.error (.plainError missingHmacMsg), s))
    ∧ (mac secretKey rawBody ≠ [] →
        verifyIncomingHMAC mac secretKey rawBody
          (some (base64Encode (mac secretKey rawBody))) = .ok ())
    ∧ ((∀ x ∈ mac secretKey rawBody, x < 256) → mac secretKey rawBody ≠ [] →
        (∀ x ∈ mac secretKey tamperedBody, x < 256) →
        mac secretKey tamperedBody ≠ mac secretKey rawBody →
        ∀ parse, ∃ msg,
          handleOrderWebhook mac secretKey parse s tamperedBody
            (some (base64Encode (mac secretKey rawBody))) t r now
            = (.error (.plainError msg), s))
    ∧ ((∀ x ∈ mac secretKey rawBody, x < 256) →
        (∀ x ∈ mac otherKey rawBody, x < 256) → mac otherKey rawBody ≠ [] →
        mac otherKey rawBody ≠ mac secretKey rawBody →
        ∃ msg, verifyIncomingHMAC mac secretKey rawBody
          (some (base64Encode (mac otherKey rawBody))) = .error (.plainError msg)) := by
  refine ⟨?_, ?_, ?_, ?_⟩
  · intro hdr hfalsy parse
    exact handleOrderWebhook_verify_error mac secretKey parse s rawBody hdr t r now _
      (verifyIncomingHMAC_missing mac secretKey rawBody hdr hfalsy)
  · intro hne
    exact verifyIncomingHMAC_ok mac secretKey rawBody hne
  · intro hbytes hne hbytes' hdiff parse
    have hdec : base64Decode (base64Encode (mac secretKey rawBody)) = mac secretKey rawBody :=
      base64_roundtrip _ hbytes
    obtain ⟨msg, hmsg⟩ := verifyIncomingHMAC_reject mac secretKey tamperedBody
      (base64Encode (mac secretKey rawBody)) hbytes'
      (by rw [hdec]; exact fun hx => hdiff hx.symm)
      (base64Encode_ne_empty _ hne)
    exact ⟨msg, handleOrderWebhook_verify_error mac secretKey parse s tamperedBody
      (some (base64Encode (mac secretKey rawBody))) t r now _ hmsg⟩
  · intro hbytes hbytes' hne hdiff
    have hdec : base64Decode (base64Encode (mac otherKey rawBody)) = mac otherKey rawBody :=
      base64_roundtrip _ hbytes'
    exact verifyIncomingHMAC_reject mac secretKey rawBody
      (base64Encode (mac otherKey rawBody)) hbytes (by rw [hdec]; exact hdiff)
      (base64Encode_ne_empty _ hne)

/-- A toy keyed digest for the witness: one byte for the key length, one
for the data length. -/
def toyMac (k d : String) : List Nat := [k.length % 256, d.length % 256]

/-- C3, witness: with a concrete keyed digest, the missing header, the
valid signature, the one-byte-longer tampered body, and the wrong-key
signature all behave as verified. -/
theorem C3_witness :
    (∀ parse, handleOrderWebhook toyMac "sekret" parse sampleStore "{}" none 0 0 0
      = (.error (.plainError missingHmacMsg), sampleStore))
    ∧ verifyIncomingHMAC toyMac "sekret" "{}"
        (some (base64Encode (toyMac "sekret" "{}"))) = .ok ()
    ∧ (∀ parse, ∃ msg, handleOrderWebhook toyMac "sekret" parse sampleStore "{} "
        (some (base64Encode (toyMac "sekret" "{}"))) 0 0 0
        = (.error (.plainError msg), sampleStore))
    ∧ (∃ msg, verifyIncomingHMAC toyMac "sekret" "{}"
        (some (base64Encode (toyMac "attacker" "{}"))) = .error (.plainError msg)) := by
  have hmain := C3_signature_verification toyMac "sekret" "{}" "{} " "attacker"
    sampleStore 0 0 0
  refine ⟨fun parse => hmain.1 none (by decide) parse, hmain.2.1 (by decide), ?_, ?_⟩
  · intro parse
    exact hmain.2.2.1 (by decide) (by decide) (by decide) (by decide) parse
  · exact hmain.2.2.2 (by decide) (by decide) (by decide) (by decide)

/-- A freshly enqueued `'product'` retry job. -/
def freshProductJob : WebhookJob :=
  { jobType := "product", id := "prod-1", attempts := 0,
    maxAttempts := MAX_ATTEMPTS, nextRetry := 0 }

/-- C8: the claim matches the queue's own retry machinery
(`MAX_ATTEMPTS`, `RETRY_DELAYS`, the catch branch that increments
`attempts` and schedules `nextRetry`) — but that branch is dead code for
the jobs the queue actually carries, because `sendProductUpdateWebhook`
catches every send error and returns `null`.  Evaluated at a failing
send: the HTTP call throws, the service swallows it, the drain loop
treats the returned `null` as success and drops the job after this first
attempt (`attempts` still 0, queue empty); had the error propagated, the
same iteration would have kept the job with `attempts = 1` and
`nextRetry` 5000ms out, as the claim describes. -/
theorem C8_retry_schedule_unreachable :
    addToQueue [] "product" "prod-1" 0 = [freshProductJob]
    ∧ axiosPostProduct .fail = .error (.plainError "request failed")
    ∧ sendProductUpdateWebhook .fail = none
    ∧ processProductIter 0 .fail [freshProductJob] = []
    ∧ processQueueIter 0 (.error (.plainError "request failed")) [freshProductJob]
        = [{ freshProductJob with attempts := 1, nextRetry := 5000 }] := by
  refine ⟨?_, ?_, ?_, ?_, ?_⟩
  · decide
  · decide
  · decide
  · decide
  · decide
